import Mathlib

/-!
# Verification of the liveness-web engine

Shallow embedding of the core of `src/services/livenessEngine.ts` and the
quality/best-frame logic of `src/components/FaceLiveness.tsx`.

Conventions of the embedding:
* JavaScript numbers are modelled as `ℚ`.  Every quantity that the embedded
  fragment manipulates stays finite, with one exception: the per-eye blink
  aspect ratio, which the source sets to `Infinity` when the eye height is
  zero.  That ratio is therefore modelled as `Option ℚ` with `none` standing
  for `Infinity`.
* JavaScript `null`/`undefined` values are modelled with `Option`.
* Mutation of the session state object is modelled by explicit state passing:
  each mutating function takes the state and returns the updated state.
* External inference calls (ONNX sessions) and canvas pixel operations are
  outside the embedded core; their outputs (raw network tensors, captured
  frames, per-frame quality scores) are inputs of the embedded functions,
  mirroring the source's data flow.
-/

namespace LivenessWeb

/-! ## Face detector (`SCRFDDetector`)

The detector decodes per-stride score/box-distance maps against a grid of
anchor centers, keeps the anchors whose score clears the threshold, rescales
by the letterbox factor and applies greedy NMS.  The optional keypoint
(`kps`) decoding path is omitted from the embedding: it never influences the
bbox coordinates, the scores, or the NMS result.
-/

/-- A detection box as handed to callers (`Detection` in livenessEngine.ts).
`bbox` is flattened into the four coordinate fields. -/
structure Detection where
  x1 : ℚ
  y1 : ℚ
  x2 : ℚ
  y2 : ℚ
  score : ℚ
deriving DecidableEq, Repr

/-- NMS threshold (`nmsThresh = 0.4` in `SCRFDDetector`). -/
def nmsThresh : ℚ := 2/5

/-- Intersection-over-union with the +1 inclusive width/height convention
(`SCRFDDetector.iou`).  A non-positive union yields 0, as in the source. -/
def iou (a b : Detection) : ℚ :=
  let x1 := max a.x1 b.x1
  let y1 := max a.y1 b.y1
  let x2 := min a.x2 b.x2
  let y2 := min a.y2 b.y2
  let w := max 0 (x2 - x1 + 1)
  let h := max 0 (y2 - y1 + 1)
  let inter := w * h
  let areaA := (a.x2 - a.x1 + 1) * (a.y2 - a.y1 + 1)
  let areaB := (b.x2 - b.x1 + 1) * (b.y2 - b.y1 + 1)
  let union := areaA + areaB - inter
  if union ≤ 0 then 0 else inter / union

/-- Descending-score comparison used by `objects.sort((a, b) => b.score - a.score)`. -/
def scoreGe (a b : Detection) : Bool := decide (b.score ≤ a.score)

/-- The greedy loop of `SCRFDDetector.nms`: keep the current top detection and
drop every remaining detection whose IoU with it exceeds the threshold.  The
source's temporary `index` bookkeeping (added before sorting, stripped at the
end) does not affect the kept detections and is omitted. -/
def nmsLoop : List Detection → List Detection
  | [] => []
  | d :: rest =>
    d :: nmsLoop (rest.filter (fun c => decide (iou d c ≤ nmsThresh)))
termination_by l => l.length
decreasing_by
  simp only [List.length_cons]
  exact Nat.lt_succ_of_le (List.length_filter_le _ _)

/-- `SCRFDDetector.nms`: sort by score descending (JavaScript `sort` is
stable, modelled by `List.mergeSort`), then run the greedy suppression loop. -/
def nms (detections : List Detection) : List Detection :=
  nmsLoop (detections.mergeSort scoreGe)

/-- `SCRFDDetector.distance2bbox`: anchor center plus left/top/right/bottom
distances gives the box corners. -/
def distance2bbox (points : List (ℚ × ℚ)) (distance : List (ℚ × ℚ × ℚ × ℚ)) :
    List (ℚ × ℚ × ℚ × ℚ) :=
  (points.zip distance).map fun pd =>
    (pd.1.1 - pd.2.1, pd.1.2 - pd.2.2.1, pd.1.1 + pd.2.2.2.1, pd.1.2 + pd.2.2.2.2)

/-- `SCRFDDetector.getAnchorCenters` for one stride: a `height × width` grid
of centers `(x*stride, y*stride)`, repeated `numAnchors` times per cell.
The string-keyed bounded cache is a pure memoisation of this value and is
omitted. -/
def getAnchorCenters (height width stride numAnchors : ℕ) : List (ℚ × ℚ) :=
  (List.range height).flatMap fun y =>
    (List.range width).flatMap fun x =>
      List.replicate numAnchors ((x * stride : ℚ), (y * stride : ℚ))

/-- Raw network output for one feature-pyramid stride, after tensor
extraction (`toFloat32`/`extractScores`): one score and one 4-distance
tuple per anchor. -/
structure StrideOutput where
  scores : List ℚ
  bboxPreds : List (ℚ × ℚ × ℚ × ℚ)
deriving DecidableEq, Repr

/-- The per-frame input of `detectFromElement` that the external inference
call produces, together with the letterbox scale from `prepareInput`. -/
structure RawNetOutput where
  strideOuts : List StrideOutput
  detScale : ℚ
deriving DecidableEq, Repr

/-- Detector configuration and load status (`SCRFDDetector` fields). -/
structure DetectorState where
  loaded : Bool
  inputWidth : ℕ
  inputHeight : ℕ
  featStrideFpn : List ℕ
  numAnchors : ℕ
deriving DecidableEq, Repr

/-- Error taxonomy of the embedded detector. -/
inductive DetectError where
  | modelNotLoaded
deriving DecidableEq, Repr

/-- One stride of `SCRFDDetector.postprocess`: scale the distance predictions
by the stride, decode boxes against the anchor centers, and keep the
(score, box) pairs whose score reaches the threshold. -/
def decodeStride (d : DetectorState) (stride : ℕ) (out : StrideOutput)
    (threshold : ℚ) : List (ℚ × (ℚ × ℚ × ℚ × ℚ)) :=
  let height := d.inputHeight / stride
  let width := d.inputWidth / stride
  let anchorCenters := getAnchorCenters height width stride d.numAnchors
  let K := height * width * d.numAnchors
  let scores := out.scores.take K
  let preds := (out.bboxPreds.take K).map fun p =>
    ((p.1 * stride : ℚ), (p.2.1 * stride : ℚ), (p.2.2.1 * stride : ℚ), (p.2.2.2 * stride : ℚ))
  let decoded := distance2bbox anchorCenters preds
  (scores.zip decoded).filter fun sb => decide (threshold ≤ sb.1)

/-- `SCRFDDetector.postprocess`: concatenate the surviving (score, box) pairs
across strides. -/
def postprocess (d : DetectorState) (raw : RawNetOutput) (threshold : ℚ) :
    List (ℚ × (ℚ × ℚ × ℚ × ℚ)) :=
  ((d.featStrideFpn.zip raw.strideOuts).map fun so =>
    decodeStride d so.1 so.2 threshold).flatten

/-- `SCRFDDetector.buildDetections`: rescale each surviving box by the
letterbox factor and run NMS.  No degeneracy check is performed. -/
def buildDetections (pairs : List (ℚ × (ℚ × ℚ × ℚ × ℚ))) (detScale : ℚ) :
    List Detection :=
  nms (pairs.map fun sb =>
    ⟨sb.2.1 / detScale, sb.2.2.1 / detScale, sb.2.2.2.1 / detScale,
     sb.2.2.2.2 / detScale, sb.1⟩)

/-- `SCRFDDetector.detectFromElement`: throws the model-not-loaded error when
no session is present, otherwise decodes the raw inference output. -/
def detectFromElement (d : DetectorState) (raw : RawNetOutput) (threshold : ℚ) :
    Except DetectError (List Detection) :=
  if !d.loaded then .error .modelNotLoaded
  else .ok (buildDetections (postprocess d raw threshold) raw.detScale)

/-! ## Liveness state machine (`LivenessEngine` and helpers)

The per-frame geometric signal computation (nod/shake ratios, blink ratios,
mouth ratio) and the stage machine of `livenessEngine.ts`.  The pose-derived
fields (`pose`, `poseDegrees`, `frontalScore`) are not part of this fragment:
no stage predicate and no state update consults them (`frontalScore` uses a
transcendental Gaussian and only feeds the UI layer, where it enters the
best-frame logic as an opaque per-frame number; see the `FaceLiveness`
section below). -/

/-- `LIVENESS_CONFIG` (mouth/nod/shake thresholds consulted by the stage
machine; `blinkThreshold` is exported by the source but never read by the
engine). -/
def nodPitch : ℚ := 5/100

/-- `LIVENESS_CONFIG.shakeYaw`. -/
def shakeYaw : ℚ := 6/100

/-- `LIVENESS_CONFIG.mouthThreshold`. -/
def mouthThreshold : ℚ := 1/2

/-- `INITIAL_BLINK_AVG`. -/
def INITIAL_BLINK_AVG : ℚ := 10

/-- `BLINK_THRESHOLD_LIMITS.low`. -/
def BLINK_LIMIT_LOW : ℚ := 5

/-- `BLINK_THRESHOLD_LIMITS.high`. -/
def BLINK_LIMIT_HIGH : ℚ := 20

/-- `BLINK_AVG_WEIGHTS.current`. -/
def BLINK_WEIGHT_CURRENT : ℚ := 1/10

/-- `BLINK_AVG_WEIGHTS.previous`. -/
def BLINK_WEIGHT_PREVIOUS : ℚ := 9/10

/-- A 2D landmark point. -/
structure Point where
  x : ℚ
  y : ℚ
deriving DecidableEq, Repr

/-- Running min/max of a signed ratio (`RangeState`). -/
structure RangeState where
  min : Option ℚ
  max : Option ℚ
deriving DecidableEq, Repr

/-- `BlinkState`: detection flags plus the adaptive threshold (`null` ↦
`none`). -/
structure BlinkState where
  closedDetected : Bool
  openDetected : Bool
  eyeAvg : Option ℚ
deriving DecidableEq, Repr

/-- `MouthState`. -/
structure MouthState where
  openDetected : Bool
  closedDetected : Bool
deriving DecidableEq, Repr

/-- Per-eye blink measurements (`computeBlinkRatios` return value).  The
source sets a ratio to `Infinity` when the eye height is zero; `none`
encodes `Infinity`. -/
structure BlinkRatios where
  leftHeight : ℚ
  rightHeight : ℚ
  leftRatio : Option ℚ
  rightRatio : Option ℚ
  ratio : Option ℚ
deriving DecidableEq, Repr

/-- `LivenessMetrics` (pose-derived fields omitted, see the section note). -/
structure LivenessMetrics where
  nodRatio : Option ℚ
  nodSpread : Option ℚ
  shakeRatio : Option ℚ
  shakeSpread : Option ℚ
  blink : Option BlinkRatios
  mouthRatio : Option ℚ
deriving DecidableEq, Repr

/-- `LivenessComputationState`. -/
structure LivenessComputationState where
  active : Bool
  stageIndex : ℕ
  progress : ℚ
  completed : Bool
  lastMetrics : Option LivenessMetrics
  nodRange : RangeState
  shakeRange : RangeState
  blink : BlinkState
  mouth : MouthState
deriving DecidableEq, Repr

/-- `createLivenessComputationState`. -/
def createLivenessComputationState : LivenessComputationState where
  active := false
  stageIndex := 0
  progress := 0
  completed := false
  lastMetrics := none
  nodRange := ⟨none, none⟩
  shakeRange := ⟨none, none⟩
  blink := ⟨false, false, some INITIAL_BLINK_AVG⟩
  mouth := ⟨false, false⟩

/-- Stage keys (`LivenessStageKey`). -/
inductive LivenessStageKey where
  | nod
  | shake
  | blink
  | mouth
deriving DecidableEq, Repr

/-- A stage definition: its key and its completion predicate.  The display
strings (`label`, `prompt`) are UI data and are omitted. -/
structure LivenessStageDefinition where
  key : LivenessStageKey
  check : LivenessMetrics → LivenessComputationState → Bool

/-- `LIVENESS_STAGES`: the fixed ordered stage list with the source's four
predicates.  `typeof x === 'number'` on a nullable metric is modelled by
matching on the `Option`. -/
def LIVENESS_STAGES : List LivenessStageDefinition :=
  [ ⟨.nod, fun metrics _ => metrics.nodSpread.elim false fun s => decide (nodPitch ≤ s)⟩,
    ⟨.shake, fun metrics _ => metrics.shakeSpread.elim false fun s => decide (shakeYaw ≤ s)⟩,
    ⟨.blink, fun _ state => state.blink.closedDetected && state.blink.openDetected⟩,
    ⟨.mouth, fun _ state => state.mouth.closedDetected && state.mouth.openDetected⟩ ]

/-- A detection paired with the landmark estimate for it
(`DetectionWithLandmarks`; the nullable `pose` field is omitted with the
other pose-derived data). -/
structure DetectionWithLandmarks where
  bbox : ℚ × ℚ × ℚ × ℚ
  score : ℚ
  landmarks : List Point
deriving DecidableEq, Repr

/-- `getFaceCenterAndNose` result. -/
structure FaceGeom where
  centerX : ℚ
  centerY : ℚ
  noseX : ℚ
  noseY : ℚ
  width : ℚ
  height : ℚ
deriving DecidableEq, Repr

/-- `getFaceCenterAndNose`: mean of the four face-outline landmarks
(96, 97, 76, 82) and the nose tip (54); bbox width/height floored at 1.
Out-of-range indexing (`landmarks[i]` → `undefined` → `toCanvasPoint` null)
is modelled by `List.get?`. -/
def getFaceCenterAndNose (det : DetectionWithLandmarks) : Option FaceGeom :=
  if det.landmarks.length < 98 then none
  else
    match det.landmarks.get? 96, det.landmarks.get? 97, det.landmarks.get? 76,
        det.landmarks.get? 82, det.landmarks.get? 54 with
    | some tl, some tr, some bl, some br, some nose =>
      some { centerX := (tl.x + tr.x + bl.x + br.x) / 4
             centerY := (tl.y + tr.y + bl.y + br.y) / 4
             noseX := nose.x
             noseY := nose.y
             width := max 1 (det.bbox.2.2.1 - det.bbox.1)
             height := max 1 (det.bbox.2.2.2 - det.bbox.2.1) }
    | _, _, _, _, _ => none

/-- `computeNodRatio`. -/
def computeNodRatio (det : DetectionWithLandmarks) : Option ℚ :=
  (getFaceCenterAndNose det).map fun info => (info.centerY - info.noseY) / info.height

/-- `computeShakeRatio`. -/
def computeShakeRatio (det : DetectionWithLandmarks) : Option ℚ :=
  (getFaceCenterAndNose det).map fun info => (info.centerX - info.noseX) / info.width

/-- `updateRangeState`.  The `Number.isFinite` guard is vacuous over `ℚ`
(the nod/shake ratios are finite: their denominators are floored at 1). -/
def updateRangeState (range : RangeState) (ratio : Option ℚ) : RangeState :=
  match ratio with
  | none => range
  | some r =>
    match range.min, range.max with
    | some mn, some mx => ⟨some (min mn r), some (max mx r)⟩
    | _, _ => ⟨some r, some r⟩

/-- `getSpread`. -/
def getSpread (range : RangeState) : Option ℚ :=
  match range.min, range.max with
  | some mn, some mx => some (mx - mn)
  | _, _ => none

/-- `resetRange`. -/
def resetRange (_ : RangeState) : RangeState := ⟨none, none⟩

/-- `computeBlinkRatios`: per-eye width/height aspect ratios from landmarks
66/62/64/60 (left) and 74/70/72/68 (right); a zero eye height gives
`Infinity` (`none`).  `ratio = min(leftRatio, rightRatio)` with the usual
`Infinity` arithmetic. -/
def computeBlinkRatios (det : DetectionWithLandmarks) : Option BlinkRatios :=
  match det.landmarks.get? 66, det.landmarks.get? 62, det.landmarks.get? 64,
      det.landmarks.get? 60, det.landmarks.get? 74, det.landmarks.get? 70,
      det.landmarks.get? 72, det.landmarks.get? 68 with
  | some upperLeft, some lowerLeft, some outerLeft, some innerLeft,
      some upperRight, some lowerRight, some outerRight, some innerRight =>
    let leftHeight := |upperLeft.y - lowerLeft.y|
    let rightHeight := |upperRight.y - lowerRight.y|
    let leftWidth := |outerLeft.x - innerLeft.x|
    let rightWidth := |outerRight.x - innerRight.x|
    let leftRatio : Option ℚ := if leftHeight = 0 then none else some (leftWidth / leftHeight)
    let rightRatio : Option ℚ := if rightHeight = 0 then none else some (rightWidth / rightHeight)
    let ratio : Option ℚ :=
      match leftRatio, rightRatio with
      | some a, some b => some (min a b)
      | some a, none => some a
      | none, some b => some b
      | none, none => none
    some ⟨leftHeight, rightHeight, leftRatio, rightRatio, ratio⟩
  | _, _, _, _, _, _, _, _ => none

/-- `r > threshold` where `none` is `Infinity` (always greater). -/
def ratioGtThreshold (r : Option ℚ) (threshold : ℚ) : Bool :=
  r.elim true fun x => decide (threshold < x)

/-- `r < threshold` where `none` is `Infinity` (never smaller). -/
def ratioLtThreshold (r : Option ℚ) (threshold : ℚ) : Bool :=
  r.elim false fun x => decide (x < threshold)

/-- The blink threshold read by `updateBlinkState` after its
`Number.isFinite` fix-up: the stored average, seeded when absent. -/
def blinkThresholdOf (state : LivenessComputationState) : ℚ :=
  match state.blink.eyeAvg with
  | none => INITIAL_BLINK_AVG
  | some a => a

/-- The "closed" classification inside `updateBlinkState`: a zero eye height,
or both ratios above the adaptive threshold.  (`typeof metrics.ratio ===
'number'` is always true in the source — `Infinity` is a number.) -/
def blinkClosedObserved (m : BlinkRatios) (state : LivenessComputationState) : Bool :=
  decide (m.leftHeight = 0) || decide (m.rightHeight = 0) ||
    (ratioGtThreshold m.leftRatio (blinkThresholdOf state) &&
     ratioGtThreshold m.rightRatio (blinkThresholdOf state))

/-- The "open" classification inside `updateBlinkState`: both eye heights
positive and both ratios below the adaptive threshold. -/
def blinkOpenObserved (m : BlinkRatios) (state : LivenessComputationState) : Bool :=
  decide (0 < m.leftHeight) && decide (0 < m.rightHeight) &&
    ratioLtThreshold m.leftRatio (blinkThresholdOf state) &&
    ratioLtThreshold m.rightRatio (blinkThresholdOf state)

/-- `updateBlinkAverage`: exponential moving average of the blink ratio,
applied only for finite ratios inside `[BLINK_LIMIT_LOW, BLINK_LIMIT_HIGH]`;
a missing average is replaced by the incoming ratio. -/
def updateBlinkAverage (ratio : Option ℚ) (state : LivenessComputationState) :
    LivenessComputationState :=
  match ratio with
  | none => state
  | some r =>
    match state.blink.eyeAvg with
    | none => { state with blink := { state.blink with eyeAvg := some r } }
    | some old =>
      if r < BLINK_LIMIT_LOW ∨ BLINK_LIMIT_HIGH < r then state
      else
        { state with blink :=
            { state.blink with
              eyeAvg := some (r * BLINK_WEIGHT_CURRENT + old * BLINK_WEIGHT_PREVIOUS) } }

/-- `updateBlinkState`: seed the average if absent, latch the closed/open
flags from this frame's classification, then update the moving average. -/
def updateBlinkState (metrics : Option BlinkRatios) (state : LivenessComputationState) :
    LivenessComputationState :=
  match metrics with
  | none => state
  | some m =>
    let state :=
      if state.blink.eyeAvg.isNone then
        { state with blink := { state.blink with eyeAvg := some INITIAL_BLINK_AVG } }
      else state
    let state :=
      if blinkClosedObserved m state then
        { state with blink := { state.blink with closedDetected := true } }
      else state
    let state :=
      if blinkOpenObserved m state then
        { state with blink := { state.blink with openDetected := true } }
      else state
    updateBlinkAverage m.ratio state

/-- `resetBlinkDetections`. -/
def resetBlinkDetections (state : LivenessComputationState) (resetAverage : Bool) :
    LivenessComputationState :=
  { state with blink :=
      { closedDetected := false
        openDetected := false
        eyeAvg := if resetAverage then some INITIAL_BLINK_AVG else state.blink.eyeAvg } }

/-- `computeMouthRatio`: mouth opening height over width from landmarks
90/94/88/92; a zero width yields `null`. -/
def computeMouthRatio (det : DetectionWithLandmarks) : Option ℚ :=
  match det.landmarks.get? 90, det.landmarks.get? 94, det.landmarks.get? 88,
      det.landmarks.get? 92 with
  | some upper, some lower, some left, some right =>
    let width := |right.x - left.x|
    if width = 0 then none
    else some (|lower.y - upper.y| / width)
  | _, _, _, _ => none

/-- `updateMouthState`: a ratio above the threshold latches `openDetected`,
any other finite ratio latches `closedDetected`. -/
def updateMouthState (ratio : Option ℚ) (state : LivenessComputationState) :
    LivenessComputationState :=
  match ratio with
  | none => state
  | some r =>
    if mouthThreshold < r then
      { state with mouth := { state.mouth with openDetected := true } }
    else
      { state with mouth := { state.mouth with closedDetected := true } }

/-- `resetMouthState`. -/
def resetMouthState (state : LivenessComputationState) : LivenessComputationState :=
  { state with mouth := ⟨false, false⟩ }

/-- `StageStatus`. -/
structure StageStatus where
  total : ℕ
  stageIndex : ℕ
  currentStage : Option LivenessStageDefinition
  completed : Bool
  justCompletedStage : Option LivenessStageDefinition
  justCompletedIndex : Option ℕ

/-- `LivenessEngine.buildStageStatus` (with `getCurrentStage` inlined as
`LIVENESS_STAGES.get?`). -/
def buildStageStatus (state : LivenessComputationState)
    (extra : Option (LivenessStageDefinition × ℕ)) : StageStatus where
  total := LIVENESS_STAGES.length
  stageIndex := min state.stageIndex (LIVENESS_STAGES.length - 1)
  currentStage := LIVENESS_STAGES.get? state.stageIndex
  completed := state.completed
  justCompletedStage := extra.map Prod.fst
  justCompletedIndex := extra.map Prod.snd

/-- `LivenessEngine.evaluateStage`: evaluate the current stage's predicate;
on success advance the stage pointer, recompute progress, reset the state
of the just-completed stage, and mark the session complete when past the
last stage. -/
def evaluateStage (metrics : LivenessMetrics) (state : LivenessComputationState) :
    LivenessComputationState × StageStatus :=
  match LIVENESS_STAGES.get? state.stageIndex with
  | none =>
    let state := { state with completed := true, active := false }
    (state, buildStageStatus state none)
  | some stage =>
    if stage.check metrics state then
      let completedIndex := state.stageIndex
      let state := { state with
        stageIndex := state.stageIndex + 1
        progress := ((state.stageIndex + 1 : ℕ) : ℚ) / (LIVENESS_STAGES.length : ℚ) }
      let state :=
        match stage.key with
        | .blink => resetBlinkDetections state false
        | .mouth => resetMouthState state
        | .nod => { state with nodRange := resetRange state.nodRange }
        | .shake => { state with shakeRange := resetRange state.shakeRange }
      let state :=
        if LIVENESS_STAGES.length ≤ state.stageIndex then
          { state with completed := true, active := false }
        else state
      (state, buildStageStatus state (some (stage, completedIndex)))
    else
      (state, buildStageStatus state none)

/-- The landmark estimate for the primary detection, as returned by
`LandmarkEstimator.estimate` (`null` when the landmark output is empty). -/
structure LandmarkEstimate where
  landmarks : List Point
deriving DecidableEq, Repr

/-- A detection as returned by the detector to `processFrame` (keypoints,
unused by the stage machine, omitted). -/
structure EngineDetection where
  bbox : ℚ × ℚ × ℚ × ℚ
  score : ℚ
deriving DecidableEq, Repr

/-- What one frame contributes to `processFrame` once the external inference
calls return: the detection list and, for the primary box, the landmark
estimate. -/
structure FrameInput where
  detections : List EngineDetection
  estimate : Option LandmarkEstimate
deriving DecidableEq, Repr

/-- `ProcessFrameResult` (an absent `multiFaceDetected` field is `false`). -/
structure ProcessFrameResult where
  detection : Option DetectionWithLandmarks
  metrics : Option LivenessMetrics
  stage : StageStatus
  multiFaceDetected : Bool

/-- Lines 1198–1222 of `processFrame`: compute the per-frame signals, update
the running ranges and the blink/mouth state, and record `lastMetrics`. -/
def computeFrameMetrics (detection : DetectionWithLandmarks)
    (state : LivenessComputationState) :
    LivenessMetrics × LivenessComputationState :=
  let nodRatio := computeNodRatio detection
  let shakeRatio := computeShakeRatio detection
  let state := { state with
    nodRange := updateRangeState state.nodRange nodRatio
    shakeRange := updateRangeState state.shakeRange shakeRatio }
  let nodSpread := getSpread state.nodRange
  let shakeSpread := getSpread state.shakeRange
  let blinkMetrics := computeBlinkRatios detection
  let state := updateBlinkState blinkMetrics state
  let mouthRatio := computeMouthRatio detection
  let state := updateMouthState mouthRatio state
  let metrics : LivenessMetrics :=
    ⟨nodRatio, nodSpread, shakeRatio, shakeSpread, blinkMetrics, mouthRatio⟩
  (metrics, { state with lastMetrics := some metrics })

/-- `LivenessEngine.processFrame` on one frame's inference results. -/
def processFrame (frame : FrameInput) (state : LivenessComputationState) :
    LivenessComputationState × ProcessFrameResult :=
  if !state.active then
    (state, ⟨none, none, buildStageStatus state none, false⟩)
  else
    match frame.detections, frame.estimate with
    | [], _ =>
      let state := { state with lastMetrics := none }
      (state, ⟨none, none, buildStageStatus state none, false⟩)
    | _ :: _ :: _, _ =>
      let state := { state with lastMetrics := none }
      (state, ⟨none, none, buildStageStatus state none, true⟩)
    | [_], none =>
      let state := { state with lastMetrics := none }
      (state, ⟨none, none, buildStageStatus state none, false⟩)
    | [primary], some estimate =>
      let detection : DetectionWithLandmarks :=
        ⟨primary.bbox, primary.score, estimate.landmarks⟩
      let (metrics, state) := computeFrameMetrics detection state
      let (state, stageStatus) := evaluateStage metrics state
      (state, ⟨some detection, some metrics, stageStatus, false⟩)

/-- `LivenessEngine.startSession`: a fresh computation state, activated, with
the per-stage state and the blink average reset. -/
def startSession : LivenessComputationState :=
  let state := { createLivenessComputationState with active := true }
  let state := resetBlinkDetections state true
  let state := resetMouthState state
  let state := { state with nodRange := resetRange state.nodRange }
  { state with shakeRange := resetRange state.shakeRange }

/-- `LivenessEngine.stopSession`. -/
def stopSession (state : LivenessComputationState) : LivenessComputationState :=
  { state with active := false }

/-- Folding `processFrame` over a sequence of frames. -/
def runFrames (frames : List FrameInput) (state : LivenessComputationState) :
    LivenessComputationState :=
  frames.foldl (fun s f => (processFrame f s).1) state

/-- The frame-acceptance condition of `processFrame`: an active session,
exactly one detection, and a usable landmark estimate. -/
def frameAccepted (frame : FrameInput) (state : LivenessComputationState) : Bool :=
  state.active &&
    (match frame.detections, frame.estimate with
     | [_], some _ => true
     | _, _ => false)

/-- Whether a frame advances the stage pointer: the frame is accepted and,
after its metric and state updates, the predicate of the stage that was
current when the frame arrived evaluates true. -/
def frameAdvances (frame : FrameInput) (state : LivenessComputationState) : Bool :=
  state.active &&
    (match frame.detections, frame.estimate with
     | [primary], some estimate =>
       let detection : DetectionWithLandmarks :=
         ⟨primary.bbox, primary.score, estimate.landmarks⟩
       let ms := computeFrameMetrics detection state
       (LIVENESS_STAGES.get? state.stageIndex).elim false fun stage =>
         stage.check ms.1 ms.2
     | _, _ => false)

/-- An accepted frame whose blink observation is not classified "closed" and
whose mouth observation is not classified "closed", judged exactly as
`processFrame` classifies them at the state the frame is processed in (the
blink threshold read by `updateBlinkState` only depends on `blink.eyeAvg`,
which the preceding range updates do not touch). -/
def frameOpenOnly (frame : FrameInput) (state : LivenessComputationState) : Bool :=
  !state.active ||
    (match frame.detections, frame.estimate with
     | [primary], some estimate =>
       let detection : DetectionWithLandmarks :=
         ⟨primary.bbox, primary.score, estimate.landmarks⟩
       (match computeBlinkRatios detection with
        | none => true
        | some m => !(blinkClosedObserved m state)) &&
       (match computeMouthRatio detection with
        | none => true
        | some r => decide (mouthThreshold < r))
     | _, _ => true)

/-- Every frame of the trace is open-only at the state it is processed in. -/
def openOnlyTrace : List FrameInput → LivenessComputationState → Bool
  | [], _ => true
  | f :: fs, s => frameOpenOnly f s && openOnlyTrace fs (processFrame f s).1

/-- The adaptive blink threshold is present and lies in the configured band
`[BLINK_THRESHOLD_LIMITS.low, BLINK_THRESHOLD_LIMITS.high]`. -/
def eyeAvgInBand (s : LivenessComputationState) : Prop :=
  ∃ a, s.blink.eyeAvg = some a ∧ BLINK_LIMIT_LOW ≤ a ∧ a ≤ BLINK_LIMIT_HIGH

/-! ### Synthetic test frames

A synthetic frontal face in the 100×100 box `(0,0,100,100)`: the four
face-outline landmarks sit at the box corners (center `(50,50)`), both eyes
are drawn with height 4 and width 20 (aspect ratio 5), the mouth has width
20 with its lower-lip y adjustable, and the nose tip is a parameter.  Used
as concrete inputs for witnesses and counterexamples. -/

/-- Landmark `i` of the synthetic face. -/
def testLandmark (nose : Point) (mouthLowerY : ℚ) (i : ℕ) : Point :=
  if i = 54 then nose
  else if i = 96 then ⟨0, 0⟩
  else if i = 97 then ⟨100, 0⟩
  else if i = 76 then ⟨0, 100⟩
  else if i = 82 then ⟨100, 100⟩
  else if i = 66 then ⟨30, 40⟩
  else if i = 62 then ⟨30, 44⟩
  else if i = 64 then ⟨20, 42⟩
  else if i = 60 then ⟨40, 42⟩
  else if i = 74 then ⟨70, 40⟩
  else if i = 70 then ⟨70, 44⟩
  else if i = 72 then ⟨80, 42⟩
  else if i = 68 then ⟨60, 42⟩
  else if i = 90 then ⟨50, 70⟩
  else if i = 94 then ⟨50, mouthLowerY⟩
  else if i = 88 then ⟨40, 71⟩
  else if i = 92 then ⟨60, 71⟩
  else ⟨0, 0⟩

/-- The full 98-point landmark list of the synthetic face. -/
def mkLandmarks (nose : Point) (mouthLowerY : ℚ) : List Point :=
  (List.range 98).map (testLandmark nose mouthLowerY)

/-- A single-face frame input built from the synthetic face. -/
def mkFrame (nose : Point) (mouthLowerY : ℚ) : FrameInput :=
  ⟨[⟨(0, 0, 100, 100), 9/10⟩], some ⟨mkLandmarks nose mouthLowerY⟩⟩

/-! ## Best-frame selection and quality aggregation (`FaceLiveness.tsx`)

The component tracks the best evidentiary frame and its quality scores.  The
canvas capture helpers (`captureKeyFrame`, `captureUploadFrame`,
`captureFullFrame`) and the pixel-statistics scorers are external image
operations; their per-frame outputs enter the embedded functions as inputs. -/

/-- JavaScript `Math.round`: round half toward positive infinity. -/
def jsRound (q : ℚ) : ℤ := ⌊q + 1/2⌋

/-- `Math.round(x * 100) / 100`: round to two decimals. -/
def roundTo2 (q : ℚ) : ℚ := (jsRound (q * 100) : ℚ) / 100

/-- The `qualityScore` aggregation effect (FaceLiveness.tsx lines 876–898):
collect the six tracked scores, bail out while any is not a number, and
otherwise store the rounded arithmetic mean.  `prev` is the current
`qualityScore` state, kept when the effect bails out. -/
def computeQualityScore (brightnessScore frontalFaceScore clarityScore
    uniformLightingScore backgroundUniformityScore pixelResolutionScore : Option ℚ)
    (prev : Option ℚ) : Option ℚ :=
  let values := [brightnessScore, frontalFaceScore, clarityScore,
    uniformLightingScore, backgroundUniformityScore, pixelResolutionScore]
  if values.any Option.isNone then prev
  else
    let sum := values.foldl (fun acc v => acc + v.getD 0) 0
    let avg := sum / (values.length : ℚ)
    some (roundTo2 avg)

/-- Brightness status labels returned by `computeBrightnessScore`. -/
inductive BrightnessStatus where
  | normal
  | underexposed
  | overexposed
  | tooBright
deriving DecidableEq, Repr

/-- `computeBrightnessScore` return value. -/
structure BrightnessResult where
  value : ℚ
  status : BrightnessStatus
deriving DecidableEq, Repr

/-- The outputs of the external capture/scoring helpers for one candidate
frame (each is `null` when its helper fails).  Captured images are modelled
as opaque handles. -/
structure CaptureOutputs where
  frame : Option ℕ
  uploadFrame : Option ℕ
  fullFrame : Option ℕ
  brightness : Option BrightnessResult
  clarity : Option ℚ
  uniformLighting : Option ℚ
  backgroundUniformity : Option ℚ
  pixelResolution : Option ℚ
deriving DecidableEq, Repr

/-- The best-frame tracking state of the component: `keyFrameScoreRef`
(`none` encodes its `-Infinity` initial value), the stored frames, and the
five per-component quality score states. -/
structure BestFrameState where
  keyFrameScore : Option ℚ
  keyFrameOriginal : Option ℕ
  keyFrameFull : Option ℕ
  keyFrameImage : Option ℕ
  brightnessScore : Option ℚ
  brightnessStatus : Option BrightnessStatus
  clarityScore : Option ℚ
  uniformLightingScore : Option ℚ
  backgroundUniformityScore : Option ℚ
  pixelResolutionScore : Option ℚ
deriving DecidableEq, Repr

/-- `poseScore > keyFrameScoreRef.current`, where the stored score starts at
`-Infinity` (`none`). -/
def exceedsStoredScore (poseScore : ℚ) (stored : Option ℚ) : Bool :=
  match stored with
  | none => true
  | some b => decide (b < poseScore)

/-- The best-frame branch of `handleLivenessResult` (FaceLiveness.tsx lines
1127–1161): when a detection with a numeric frontal score arrives outside
mobile handoff and the frontal score strictly exceeds the stored best, the
frame captures and component scores are recomputed; the backing frames and
the stored score are replaced only if all three captures succeeded, and each
component score is replaced only if its scorer returned a value. -/
def handleBestFrameUpdate (frontalScore : Option ℚ) (hasDetection : Bool)
    (isMobileHandoff : Bool) (cap : CaptureOutputs) (s : BestFrameState) :
    BestFrameState :=
  match frontalScore with
  | none => s
  | some poseScore =>
    if isMobileHandoff || !hasDetection then s
    else if exceedsStoredScore poseScore s.keyFrameScore then
      let s :=
        match cap.frame, cap.uploadFrame, cap.fullFrame with
        | some _, some upload, some full =>
          { s with keyFrameScore := some poseScore
                   keyFrameOriginal := some upload
                   keyFrameFull := some full
                   keyFrameImage := some full }
        | _, _, _ => s
      let s :=
        match cap.brightness with
        | some b => { s with brightnessScore := some b.value, brightnessStatus := some b.status }
        | none => s
      let s :=
        match cap.clarity with
        | some c => { s with clarityScore := some c }
        | none => s
      let s :=
        match cap.uniformLighting with
        | some u => { s with uniformLightingScore := some u }
        | none => s
      let s :=
        match cap.backgroundUniformity with
        | some b => { s with backgroundUniformityScore := some b }
        | none => s
      match cap.pixelResolution with
      | some p => { s with pixelResolutionScore := some p }
      | none => s
    else s

/-! ## Theorems -/

/-! ### NMS (claim C6) -/

theorem nmsLoop_sublist (l : List Detection) : List.Sublist (nmsLoop l) l := by
  induction l using nmsLoop.induct with
  | case1 => simp [nmsLoop]
  | case2 d rest ih =>
    rw [nmsLoop]
    exact (ih.trans (List.filter_sublist rest)).cons₂ d

theorem nmsLoop_pairwise (l : List Detection) :
    (nmsLoop l).Pairwise (fun a b => iou a b ≤ nmsThresh) := by
  induction l using nmsLoop.induct with
  | case1 => simp [nmsLoop]
  | case2 d rest ih =>
    rw [nmsLoop]
    refine List.Pairwise.cons (fun b hb => ?_) ih
    have hmem := (nmsLoop_sublist _).subset hb
    simpa using List.of_mem_filter hmem

theorem nmsLoop_of_pairwise (l : List Detection)
    (h : l.Pairwise (fun a b => iou a b ≤ nmsThresh)) : nmsLoop l = l := by
  induction l using nmsLoop.induct with
  | case1 => simp [nmsLoop]
  | case2 d rest ih =>
    rw [List.pairwise_cons] at h
    have hf : rest.filter (fun c => decide (iou d c ≤ nmsThresh)) = rest :=
      List.filter_eq_self.mpr fun a ha => decide_eq_true (h.1 a ha)
    rw [hf] at ih
    rw [nmsLoop, hf, ih h.2]

theorem scoreGe_trans (a b c : Detection) :
    scoreGe a b → scoreGe b c → scoreGe a c := by
  simp only [scoreGe, decide_eq_true_eq]
  exact fun h1 h2 => le_trans h2 h1

theorem scoreGe_total (a b : Detection) : scoreGe a b || scoreGe b a := by
  simp only [scoreGe, Bool.or_eq_true, decide_eq_true_eq]
  exact le_total b.score a.score

theorem nms_sorted (l : List Detection) :
    (nms l).Pairwise (fun a b => scoreGe a b) :=
  List.Pairwise.sublist (nmsLoop_sublist _)
    (List.sorted_mergeSort scoreGe_trans scoreGe_total l)

/-- C6: greedy NMS is idempotent — no pair of kept detections has IoU above
the 0.4 threshold (with the +1 inclusive convention), so re-running NMS on
its own output returns it unchanged. -/
theorem nms_idempotent (l : List Detection) :
    nms (nms l) = nms l ∧
    (nms l).Pairwise (fun a b => ¬ nmsThresh < iou a b) := by
  constructor
  · show nmsLoop (List.mergeSort (nms l) scoreGe) = nms l
    rw [List.mergeSort_of_sorted (nms_sorted l)]
    exact nmsLoop_of_pairwise _ (nmsLoop_pairwise _)
  · exact (nmsLoop_pairwise _).imp not_lt_of_le

/-! ### Detector error handling (claim C9) -/

/-- C9: `detectFromElement` fails with the model-not-loaded error exactly
when it is called before the detection model has been loaded; once loaded, a
frame on which no decoded score reaches the threshold yields the empty
detection sequence as a normal return value, not an error. -/
theorem detect_error_iff_not_loaded (d : DetectorState) (raw : RawNetOutput)
    (threshold : ℚ) :
    (detectFromElement d raw threshold = .error .modelNotLoaded ↔ d.loaded = false) ∧
    (d.loaded = true →
      (∀ so ∈ raw.strideOuts, ∀ sc ∈ so.scores, sc < threshold) →
      detectFromElement d raw threshold = .ok []) := by
  constructor
  · cases hl : d.loaded <;> simp [detectFromElement, hl]
  · intro hl hsc
    have hpost : postprocess d raw threshold = [] := by
      unfold postprocess
      rw [List.flatten_eq_nil_iff]
      intro sub hsub
      rw [List.mem_map] at hsub
      obtain ⟨so, hso, rfl⟩ := hsub
      unfold decodeStride
      rw [List.filter_eq_nil_iff]
      rintro ⟨sc, box⟩ hsb
      have hs2 : sc ∈ so.2.scores := List.take_subset _ _ (List.of_mem_zip hsb).1
      have := hsc so.2 (List.of_mem_zip hso).2 sc hs2
      simpa using not_le.mpr this
    simp [detectFromElement, hl, hpost, buildDetections, nms, nmsLoop]

/-- C9 witness: a loaded 8×8 single-anchor detector whose only decoded score
is 1/4 returns the empty sequence at threshold 1/2, with no error. -/
theorem detect_error_iff_not_loaded_witness :
    detectFromElement ⟨true, 8, 8, [8, 16, 32], 1⟩
      ⟨[⟨[1/4], [(1, 1, 1, 1)]⟩, ⟨[], []⟩, ⟨[], []⟩], 1⟩ (1/2) = .ok [] := by
  refine (detect_error_iff_not_loaded _ _ _).2 rfl ?_
  intro so hso sc hsc
  simp only [List.mem_cons, List.not_mem_nil, or_false] at hso
  rcases hso with h | h | h <;> subst h <;> simp at hsc
  subst hsc
  norm_num

/-! ### Degenerate detection boxes (claim C3) -/

/-- Every detection kept by NMS comes from the input list. -/
theorem mem_of_mem_nms {d : Detection} {l : List Detection} (h : d ∈ nms l) :
    d ∈ l :=
  List.mem_mergeSort.mp ((nmsLoop_sublist _).subset h)

/-- C3 counterexample: with the model loaded, a single anchor whose network
distance outputs are negative decodes to the box (-8, -8, -16, -16), which
has `x1 > x2` and `y1 > y2` and is returned to the caller unfiltered. -/
theorem detections_degenerate_counterexample :
    detectFromElement ⟨true, 8, 8, [8, 16, 32], 2⟩
      ⟨[⟨[9/10, 0], [(1, 1, -2, -2), (0, 0, 0, 0)]⟩, ⟨[], []⟩, ⟨[], []⟩], 1⟩ (1/2)
      = .ok [⟨-8, -8, -16, -16, 9/10⟩] ∧ ¬ ((-8 : ℚ) < -16) := by
  constructor
  · norm_num [detectFromElement, postprocess, decodeStride, getAnchorCenters,
      distance2bbox, buildDetections, nms, nmsLoop, List.range_succ,
      List.replicate_succ, List.filter_cons, List.mergeSort_singleton]
  · norm_num

/-- C3 amended: the detector performs no degeneracy filtering; a returned
detection satisfies `x1 < x2` and `y1 < y2` exactly when its decoded
extents are positive — guaranteed whenever every raw left+right and
top+bottom distance sum is positive (strides and the letterbox scale being
positive). -/
theorem detections_nondegenerate_of_positive_extents (d : DetectorState)
    (raw : RawNetOutput) (threshold : ℚ)
    (hscale : 0 < raw.detScale)
    (hstride : ∀ st ∈ d.featStrideFpn, 0 < st)
    (hpred : ∀ so ∈ raw.strideOuts, ∀ p ∈ so.bboxPreds,
      0 < p.1 + p.2.2.1 ∧ 0 < p.2.1 + p.2.2.2)
    (det : Detection)
    (hdet : det ∈ buildDetections (postprocess d raw threshold) raw.detScale) :
    det.x1 < det.x2 ∧ det.y1 < det.y2 := by
  obtain ⟨sb, hsb, rfl⟩ := List.mem_map.mp (mem_of_mem_nms hdet)
  obtain ⟨sub, hsub, hsbsub⟩ := List.mem_flatten.mp hsb
  obtain ⟨stso, hstso, rfl⟩ := List.mem_map.mp hsub
  have hst : 0 < stso.1 := hstride _ (List.of_mem_zip hstso).1
  have hso : stso.2 ∈ raw.strideOuts := (List.of_mem_zip hstso).2
  unfold decodeStride at hsbsub
  have hzip := List.mem_filter.mp hsbsub |>.1
  have hboxmem := (List.of_mem_zip hzip).2
  obtain ⟨pd, hpd, hbox⟩ := List.mem_map.mp hboxmem
  have hpred2 := (List.of_mem_zip hpd).2
  obtain ⟨p, hp, hpq⟩ := List.mem_map.mp hpred2
  have hpmem : p ∈ stso.2.bboxPreds := List.take_subset _ _ hp
  obtain ⟨h1, h2⟩ := hpred _ hso _ hpmem
  have hstq : (0 : ℚ) < (stso.1 : ℚ) := by exact_mod_cast hst
  have hx : sb.2.1 < sb.2.2.2.1 := by
    rw [← hbox, ← hpq]
    dsimp only
    nlinarith
  have hy : sb.2.2.1 < sb.2.2.2.2 := by
    rw [← hbox, ← hpq]
    dsimp only
    nlinarith
  constructor
  · dsimp only
    gcongr
  · dsimp only
    gcongr

/-- C3 amended witness: a loaded detector with positive distance outputs
(1, 1, 2, 2) at stride 8 yields the box (-8, -8, 16, 16), which is
non-degenerate. -/
theorem detections_nondegenerate_witness :
    (⟨-8, -8, 16, 16, 9/10⟩ : Detection) ∈
      buildDetections
        (postprocess ⟨true, 8, 8, [8, 16, 32], 1⟩
          ⟨[⟨[9/10], [(1, 1, 2, 2)]⟩, ⟨[], []⟩, ⟨[], []⟩], 1⟩ (1/2)) 1 ∧
    ((-8 : ℚ) < 16 ∧ (-8 : ℚ) < 16) := by
  have hmem : (⟨-8, -8, 16, 16, 9/10⟩ : Detection) ∈
      buildDetections
        (postprocess ⟨true, 8, 8, [8, 16, 32], 1⟩
          ⟨[⟨[9/10], [(1, 1, 2, 2)]⟩, ⟨[], []⟩, ⟨[], []⟩], 1⟩ (1/2)) 1 := by
    norm_num [postprocess, decodeStride, getAnchorCenters, distance2bbox,
      buildDetections, nms, nmsLoop, List.range_succ, List.replicate_succ,
      List.filter_cons, List.mergeSort_singleton]
  refine ⟨hmem, ?_⟩
  refine detections_nondegenerate_of_positive_extents _ _ (1/2) (by norm_num) ?_ ?_ _ hmem
  · intro st hst
    fin_cases hst <;> norm_num
  · intro so hso p hp
    simp only [List.mem_cons, List.not_mem_nil, or_false] at hso
    rcases hso with h | h | h <;> subst h <;> simp at hp
    subst hp
    norm_num

/-! ### Quality aggregation (claim C2) -/

/-- C2 counterexample: with the five quality components all equal to 100 and
a frontal face score of 0, the stored aggregate becomes 83.33 — the rounded
mean of six values including the frontal score — not 100, the mean of the
five quality components named by the claim. -/
theorem quality_mean_of_five_counterexample :
    computeQualityScore (some 100) (some 0) (some 100) (some 100) (some 100)
      (some 100) none = some (8333/100) ∧
    ((100 + 100 + 100 + 100 + 100 : ℚ) / 5 = 100) ∧ (8333/100 : ℚ) ≠ 100 := by
  refine ⟨?_, by norm_num, by norm_num⟩
  have hfloor : jsRound ((25000 : ℚ) / 3) = 8333 := by
    rw [jsRound, Int.floor_eq_iff]
    norm_num
  norm_num [computeQualityScore, roundTo2, hfloor]

/-- C2 amended: once all six tracked scores — the five quality components
and the frontal face score — are present, the aggregate equals the
arithmetic mean of the six rounded to two decimals, and while any of the six
is missing the stored aggregate is left unchanged. -/
theorem quality_mean_of_six (b f c u g p : ℚ) (prev : Option ℚ)
    (b' f' c' u' g' p' : Option ℚ) :
    computeQualityScore (some b) (some f) (some c) (some u) (some g) (some p) prev
      = some (roundTo2 ((b + f + c + u + g + p) / 6)) ∧
    ((b'.isNone ∨ f'.isNone ∨ c'.isNone ∨ u'.isNone ∨ g'.isNone ∨ p'.isNone) →
      computeQualityScore b' f' c' u' g' p' prev = prev) := by
  constructor
  · simp only [computeQualityScore, List.any_cons, List.any_nil,
      Option.isNone_some, Bool.or_self, Bool.or_false, Bool.false_eq_true,
      if_false, List.foldl, Option.getD_some, List.length]
    norm_num
  · intro h
    rcases h with h | h | h | h | h | h <;>
      rw [Option.isNone_iff_eq_none] at h <;> subst h <;>
      simp [computeQualityScore]

/-- C2 witness: the amended rule at concrete inputs — six present scores
aggregate to the rounded six-mean, and a missing brightness leaves the
stored aggregate untouched. -/
theorem quality_mean_of_six_witness :
    computeQualityScore (some 80) (some 90) (some 70) (some 60) (some 50)
      (some 40) none = some (roundTo2 ((80 + 90 + 70 + 60 + 50 + 40) / 6)) ∧
    computeQualityScore none (some 1) (some 1) (some 1) (some 1) (some 1)
      (some (7/2)) = some (7/2) :=
  ⟨(quality_mean_of_six 80 90 70 60 50 40 none none none none none none none).1,
   (quality_mean_of_six 80 90 70 60 50 40 (some (7/2)) none (some 1) (some 1)
      (some 1) (some 1) (some 1)).2 (Or.inl rfl)⟩

/-! ### Best-frame replacement (claim C7) -/

/-- C7: the stored best frame and its quality scores are replaced only when
the candidate's frontal score strictly exceeds the stored best: with a
stored score present, a candidate scoring lower or equal (ties included)
leaves the entire best-frame state unchanged, as does a frame without a
frontal score. -/
theorem best_frame_strict_replacement (hasDetection isMobileHandoff : Bool)
    (cap : CaptureOutputs) (s : BestFrameState) (ps b : ℚ)
    (hstored : s.keyFrameScore = some b) (hle : ps ≤ b) :
    handleBestFrameUpdate (some ps) hasDetection isMobileHandoff cap s = s ∧
    handleBestFrameUpdate none hasDetection isMobileHandoff cap s = s := by
  refine ⟨?_, rfl⟩
  have hx : exceedsStoredScore ps s.keyFrameScore = false := by
    rw [hstored]
    exact decide_eq_false (not_lt.mpr hle)
  simp [handleBestFrameUpdate, hx]

/-- C7 witness: a candidate with frontal score exactly equal to the stored
best (50) does not replace any stored field. -/
theorem best_frame_strict_replacement_witness :
    handleBestFrameUpdate (some 50) true false
      ⟨some 7, some 8, some 9, some ⟨95, .normal⟩, some 91, some 92, some 93, some 94⟩
      ⟨some 50, some 1, some 2, some 3, some 10, some .normal, some 20, some 30,
       some 40, some 55⟩
      = ⟨some 50, some 1, some 2, some 3, some 10, some .normal, some 20, some 30,
         some 40, some 55⟩ :=
  (best_frame_strict_replacement true false _ _ 50 50 rfl le_rfl).1

/-! ### Multi-face frames (claim C5) -/

/-- C5: on a frame with more than one detection, `processFrame` reports
`multiFaceDetected = true` with null detection and metrics, and the entire
stage-machine state — stageIndex, completed, nod/shake ranges, blink flags
and eyeAvg, mouth flags, active — is exactly as before the frame (only the
diagnostic `lastMetrics` is cleared). -/
theorem multi_face_leaves_state_unchanged (frame : FrameInput)
    (state : LivenessComputationState) (hactive : state.active = true)
    (hmulti : 1 < frame.detections.length) :
    (processFrame frame state).2.multiFaceDetected = true ∧
    (processFrame frame state).2.detection = none ∧
    (processFrame frame state).2.metrics = none ∧
    (processFrame frame state).1.stageIndex = state.stageIndex ∧
    (processFrame frame state).1.completed = state.completed ∧
    (processFrame frame state).1.nodRange = state.nodRange ∧
    (processFrame frame state).1.shakeRange = state.shakeRange ∧
    (processFrame frame state).1.blink = state.blink ∧
    (processFrame frame state).1.mouth = state.mouth ∧
    (processFrame frame state).1.active = state.active := by
  obtain ⟨dets, est⟩ := frame
  rcases dets with _ | ⟨d1, _ | ⟨d2, rest⟩⟩
  · simp at hmulti
  · simp at hmulti
  · simp [processFrame, hactive]

/-- C5 witness: a two-detection frame against a freshly started session. -/
theorem multi_face_witness :
    (processFrame ⟨[⟨(0, 0, 10, 10), 1/2⟩, ⟨(5, 5, 20, 20), 1/2⟩], none⟩
        startSession).2.multiFaceDetected = true :=
  (multi_face_leaves_state_unchanged _ startSession rfl (by norm_num)).1

/-! ### Stage order (claim C4) -/

theorem updateBlinkAverage_stageIndex (r : Option ℚ) (s : LivenessComputationState) :
    (updateBlinkAverage r s).stageIndex = s.stageIndex := by
  unfold updateBlinkAverage
  cases r with
  | none => rfl
  | some x =>
    cases h : s.blink.eyeAvg with
    | none => rfl
    | some old =>
      dsimp only
      split <;> rfl

theorem updateBlinkState_stageIndex (m : Option BlinkRatios)
    (s : LivenessComputationState) :
    (updateBlinkState m s).stageIndex = s.stageIndex := by
  unfold updateBlinkState
  cases m with
  | none => rfl
  | some mm =>
    dsimp only
    rw [updateBlinkAverage_stageIndex]
    split <;> split <;> split <;> rfl

theorem updateMouthState_stageIndex (r : Option ℚ) (s : LivenessComputationState) :
    (updateMouthState r s).stageIndex = s.stageIndex := by
  unfold updateMouthState
  cases r with
  | none => rfl
  | some x =>
    dsimp only
    split <;> rfl

theorem computeFrameMetrics_stageIndex (det : DetectionWithLandmarks)
    (s : LivenessComputationState) :
    (computeFrameMetrics det s).2.stageIndex = s.stageIndex := by
  unfold computeFrameMetrics
  dsimp only
  rw [updateMouthState_stageIndex, updateBlinkState_stageIndex]

/-- The step shape of the stage pointer: it advances by exactly one on a
frame that satisfies `frameAdvances`, and is unchanged otherwise. -/
theorem processFrame_stageIndex_eq (frame : FrameInput)
    (state : LivenessComputationState) :
    (processFrame frame state).1.stageIndex =
      if frameAdvances frame state = true then state.stageIndex + 1
      else state.stageIndex := by
  obtain ⟨dets, est⟩ := frame
  cases hactive : state.active with
  | false => simp [processFrame, frameAdvances, hactive]
  | true =>
    rcases dets with _ | ⟨p, _ | ⟨q, rest⟩⟩
    · simp [processFrame, frameAdvances, hactive]
    · rcases est with _ | est
      · simp [processFrame, frameAdvances, hactive]
      · rcases hcm : computeFrameMetrics ⟨p.bbox, p.score, est.landmarks⟩ state
          with ⟨metrics, s4⟩
        have hs4 : s4.stageIndex = state.stageIndex := by
          have := computeFrameMetrics_stageIndex ⟨p.bbox, p.score, est.landmarks⟩ state
          rw [hcm] at this
          exact this
        simp only [processFrame, frameAdvances, hactive, hcm, Bool.true_and,
          if_true, evaluateStage, hs4]
        cases hstage : LIVENESS_STAGES.get? state.stageIndex with
        | none => simp
        | some stage =>
          cases hcheck : stage.check metrics s4 with
          | false => simp [hcheck, hs4]
          | true =>
            simp only [hcheck, if_true, Option.elim_some]
            cases hkey : stage.key <;>
              simp [resetBlinkDetections, resetMouthState, resetRange, hs4] <;>
              split <;> simp [hs4]
    · simp [processFrame, frameAdvances, hactive]

theorem runFrames_stageIndex_le (frames : List FrameInput) :
    ∀ s : LivenessComputationState, s.stageIndex ≤ (runFrames frames s).stageIndex := by
  induction frames with
  | nil => intro s; exact le_refl _
  | cons f fs ih =>
    intro s
    have h1 : s.stageIndex ≤ (processFrame f s).1.stageIndex := by
      rw [processFrame_stageIndex_eq]
      split <;> omega
    calc s.stageIndex ≤ (processFrame f s).1.stageIndex := h1
      _ ≤ (runFrames fs (processFrame f s).1).stageIndex := ih _
      _ = (runFrames (f :: fs) s).stageIndex := by simp [runFrames]

/-- C4: `stageIndex` advances by exactly one on a frame whose current-stage
predicate (evaluated on that frame's updated metrics and state) is true and
is unchanged on every other frame; over any frame sequence it is
non-decreasing, so stages complete one at a time in the fixed list order
with none skipped. -/
theorem stage_order_invariant (frame : FrameInput) (state : LivenessComputationState)
    (frames : List FrameInput) :
    ((processFrame frame state).1.stageIndex =
      if frameAdvances frame state = true then state.stageIndex + 1
      else state.stageIndex) ∧
    state.stageIndex ≤ (runFrames frames state).stageIndex :=
  ⟨processFrame_stageIndex_eq frame state, runFrames_stageIndex_le frames state⟩

/-! ### Blink threshold band (claim C10) -/

theorem eyeAvgInBand_of_blink_eq {s s' : LivenessComputationState}
    (hb : s'.blink = s.blink) (h : eyeAvgInBand s) : eyeAvgInBand s' := by
  unfold eyeAvgInBand
  rw [hb]
  exact h

theorem updateBlinkAverage_band (r : Option ℚ) (s : LivenessComputationState)
    (h : eyeAvgInBand s) : eyeAvgInBand (updateBlinkAverage r s) := by
  obtain ⟨a, ha, h5, h20⟩ := h
  unfold updateBlinkAverage
  cases r with
  | none => exact ⟨a, ha, h5, h20⟩
  | some x =>
    rw [ha]
    dsimp only
    split
    next hcond => exact ⟨a, ha, h5, h20⟩
    next hcond =>
      push_neg at hcond
      refine ⟨x * BLINK_WEIGHT_CURRENT + a * BLINK_WEIGHT_PREVIOUS, rfl, ?_, ?_⟩
      · simp only [BLINK_LIMIT_LOW, BLINK_WEIGHT_CURRENT, BLINK_WEIGHT_PREVIOUS] at *
        linarith [hcond.1]
      · simp only [BLINK_LIMIT_HIGH, BLINK_WEIGHT_CURRENT, BLINK_WEIGHT_PREVIOUS] at *
        linarith [hcond.2]

theorem updateBlinkState_band (m : Option BlinkRatios) (s : LivenessComputationState)
    (h : eyeAvgInBand s) : eyeAvgInBand (updateBlinkState m s) := by
  cases m with
  | none => exact h
  | some mm =>
    obtain ⟨a, ha, h5, h20⟩ := h
    unfold updateBlinkState
    dsimp only
    rw [ha]
    simp only [Option.isNone_some, Bool.false_eq_true, if_false]
    apply updateBlinkAverage_band
    split <;> split <;> exact ⟨a, ha, h5, h20⟩

theorem updateMouthState_blink (r : Option ℚ) (s : LivenessComputationState) :
    (updateMouthState r s).blink = s.blink := by
  unfold updateMouthState
  cases r with
  | none => rfl
  | some x =>
    dsimp only
    split <;> rfl

theorem computeFrameMetrics_band (det : DetectionWithLandmarks)
    (s : LivenessComputationState) (h : eyeAvgInBand s) :
    eyeAvgInBand (computeFrameMetrics det s).2 := by
  unfold computeFrameMetrics
  dsimp only
  have h1 : eyeAvgInBand { s with
      nodRange := updateRangeState s.nodRange (computeNodRatio det)
      shakeRange := updateRangeState s.shakeRange (computeShakeRatio det) } := h
  refine eyeAvgInBand_of_blink_eq ?_ (updateBlinkState_band (computeBlinkRatios det) _ h1)
  show (updateMouthState (computeMouthRatio det) _).blink = _
  rw [updateMouthState_blink]

theorem evaluateStage_band (metrics : LivenessMetrics) (s : LivenessComputationState)
    (h : eyeAvgInBand s) : eyeAvgInBand (evaluateStage metrics s).1 := by
  obtain ⟨a, ha, h5, h20⟩ := h
  unfold evaluateStage
  cases hstage : LIVENESS_STAGES.get? s.stageIndex with
  | none => exact ⟨a, ha, h5, h20⟩
  | some stage =>
    dsimp only
    split
    · cases hkey : stage.key <;> dsimp only [resetBlinkDetections, resetMouthState,
        resetRange] <;> split <;> exact ⟨a, ha, h5, h20⟩
    · exact ⟨a, ha, h5, h20⟩

theorem processFrame_band (f : FrameInput) (s : LivenessComputationState)
    (h : eyeAvgInBand s) : eyeAvgInBand (processFrame f s).1 := by
  obtain ⟨dets, est⟩ := f
  cases hactive : s.active with
  | false =>
    simp only [processFrame, hactive]
    exact h
  | true =>
    rcases dets with _ | ⟨p, _ | ⟨q, rest⟩⟩
    · simp only [processFrame, hactive]
      exact h
    · rcases est with _ | est
      · simp only [processFrame, hactive]
        exact h
      · rcases hcm : computeFrameMetrics ⟨p.bbox, p.score, est.landmarks⟩ s
          with ⟨metrics, s4⟩
        have hband4 : eyeAvgInBand s4 := by
          have := computeFrameMetrics_band ⟨p.bbox, p.score, est.landmarks⟩ s h
          rw [hcm] at this
          exact this
        simp only [processFrame, hactive, hcm]
        exact evaluateStage_band metrics s4 hband4
    · simp only [processFrame, hactive]
      exact h

/-- C10: throughout every session the adaptive blink threshold `eyeAvg`
lies within [5, 20]: it is seeded to 10 at session start and every
exponential-moving-average update — applied only when the incoming ratio
itself lies in [5, 20] — keeps it inside the band. -/
theorem eyeAvg_stays_in_band (frames : List FrameInput) :
    startSession.blink.eyeAvg = some INITIAL_BLINK_AVG ∧
    eyeAvgInBand (runFrames frames startSession) := by
  refine ⟨rfl, ?_⟩
  have h0 : eyeAvgInBand startSession :=
    ⟨INITIAL_BLINK_AVG, rfl,
     by norm_num [BLINK_LIMIT_LOW, INITIAL_BLINK_AVG],
     by norm_num [BLINK_LIMIT_HIGH, INITIAL_BLINK_AVG]⟩
  have hrun : ∀ s, eyeAvgInBand s → eyeAvgInBand (runFrames frames s) := by
    induction frames with
    | nil => exact fun s h => h
    | cons f fs ih => exact fun s h => ih _ (processFrame_band f s h)
  exact hrun _ h0

/-! ### Open-only streams (claim C8) -/

theorem updateBlinkAverage_closed (r : Option ℚ) (s : LivenessComputationState) :
    (updateBlinkAverage r s).blink.closedDetected = s.blink.closedDetected := by
  unfold updateBlinkAverage
  cases r with
  | none => rfl
  | some x =>
    cases h : s.blink.eyeAvg with
    | none => rfl
    | some old =>
      dsimp only
      split <;> rfl

theorem updateBlinkAverage_mouth (r : Option ℚ) (s : LivenessComputationState) :
    (updateBlinkAverage r s).mouth = s.mouth := by
  unfold updateBlinkAverage
  cases r with
  | none => rfl
  | some x =>
    cases h : s.blink.eyeAvg with
    | none => rfl
    | some old =>
      dsimp only
      split <;> rfl

theorem updateBlinkState_mouth (m : Option BlinkRatios) (s : LivenessComputationState) :
    (updateBlinkState m s).mouth = s.mouth := by
  unfold updateBlinkState
  cases m with
  | none => rfl
  | some mm =>
    dsimp only
    rw [updateBlinkAverage_mouth]
    split <;> split <;> split <;> rfl

/-- Seeding a missing blink average does not change the threshold that the
closed/open classification reads. -/
theorem blinkClosedObserved_seed (mm : BlinkRatios) (s : LivenessComputationState) :
    blinkClosedObserved mm
      (if s.blink.eyeAvg.isNone then
        { s with blink := { s.blink with eyeAvg := some INITIAL_BLINK_AVG } }
      else s) = blinkClosedObserved mm s := by
  unfold blinkClosedObserved blinkThresholdOf
  cases h : s.blink.eyeAvg <;> simp [h]

theorem updateBlinkState_closed_false (mm : BlinkRatios) (s : LivenessComputationState)
    (hflag : s.blink.closedDetected = false)
    (hobs : blinkClosedObserved mm s = false) :
    (updateBlinkState (some mm) s).blink.closedDetected = false := by
  unfold updateBlinkState
  dsimp only
  rw [updateBlinkAverage_closed, blinkClosedObserved_seed, hobs]
  simp only [Bool.false_eq_true, if_false]
  split <;> split <;> exact hflag

theorem updateMouthState_closed_false (r : Option ℚ) (s : LivenessComputationState)
    (hflag : s.mouth.closedDetected = false)
    (hobs : ∀ x, r = some x → mouthThreshold < x) :
    (updateMouthState r s).mouth.closedDetected = false := by
  unfold updateMouthState
  cases r with
  | none => exact hflag
  | some x =>
    dsimp only
    rw [if_pos (hobs x rfl)]
    exact hflag

theorem evaluateStage_closed_flags (metrics : LivenessMetrics)
    (s : LivenessComputationState)
    (hb : s.blink.closedDetected = false) (hm : s.mouth.closedDetected = false) :
    (evaluateStage metrics s).1.blink.closedDetected = false ∧
    (evaluateStage metrics s).1.mouth.closedDetected = false := by
  unfold evaluateStage
  cases hstage : LIVENESS_STAGES.get? s.stageIndex with
  | none => exact ⟨hb, hm⟩
  | some stage =>
    dsimp only
    split
    · cases hkey : stage.key <;>
        dsimp only [resetBlinkDetections, resetMouthState, resetRange] <;>
        split <;>
        exact ⟨by first | rfl | exact hb, by first | rfl | exact hm⟩
    · exact ⟨hb, hm⟩

theorem processFrame_openOnly_step (f : FrameInput) (s : LivenessComputationState)
    (hb : s.blink.closedDetected = false) (hm : s.mouth.closedDetected = false)
    (hopen : frameOpenOnly f s = true) :
    (processFrame f s).1.blink.closedDetected = false ∧
    (processFrame f s).1.mouth.closedDetected = false := by
  obtain ⟨dets, est⟩ := f
  cases hactive : s.active with
  | false =>
    simp only [processFrame, hactive]
    exact ⟨hb, hm⟩
  | true =>
    rcases dets with _ | ⟨p, _ | ⟨q, rest⟩⟩
    · simp only [processFrame, hactive]
      exact ⟨hb, hm⟩
    · rcases est with _ | est
      · simp only [processFrame, hactive]
        exact ⟨hb, hm⟩
      · simp only [frameOpenOnly, hactive, Bool.not_true, Bool.false_or,
          Bool.and_eq_true] at hopen
        obtain ⟨hopenB, hopenM⟩ := hopen
        rcases hcm : computeFrameMetrics ⟨p.bbox, p.score, est.landmarks⟩ s
          with ⟨metrics, s4⟩
        have hflags4 : s4.blink.closedDetected = false ∧
            s4.mouth.closedDetected = false := by
          have hblink : (computeFrameMetrics ⟨p.bbox, p.score, est.landmarks⟩ s).2.blink.closedDetected = false := by
            unfold computeFrameMetrics
            dsimp only
            show (updateMouthState _ _).blink.closedDetected = false
            rw [updateMouthState_blink]
            cases hbr : computeBlinkRatios ⟨p.bbox, p.score, est.landmarks⟩ with
            | none => exact hb
            | some mm =>
              rw [hbr] at hopenB
              apply updateBlinkState_closed_false
              · exact hb
              · simpa using hopenB
          have hmouth : (computeFrameMetrics ⟨p.bbox, p.score, est.landmarks⟩ s).2.mouth.closedDetected = false := by
            unfold computeFrameMetrics
            dsimp only
            apply updateMouthState_closed_false _ _ ?_ ?_
            · rw [updateBlinkState_mouth]
              exact hm
            · intro x hx
              rw [hx] at hopenM
              simpa using hopenM
          rw [hcm] at hblink hmouth
          exact ⟨hblink, hmouth⟩
        simp only [processFrame, hactive, hcm]
        exact evaluateStage_closed_flags metrics s4 hflags4.1 hflags4.2
    · simp only [processFrame, hactive]
      exact ⟨hb, hm⟩

theorem runFrames_closed_flags (frames : List FrameInput) :
    ∀ s : LivenessComputationState,
      s.blink.closedDetected = false → s.mouth.closedDetected = false →
      openOnlyTrace frames s = true →
      (runFrames frames s).blink.closedDetected = false ∧
      (runFrames frames s).mouth.closedDetected = false := by
  induction frames with
  | nil => exact fun s hb hm _ => ⟨hb, hm⟩
  | cons f fs ih =>
    intro s hb hm hopen
    rw [openOnlyTrace, Bool.and_eq_true] at hopen
    have step := processFrame_openOnly_step f s hb hm hopen.1
    exact ih _ step.1 step.2 hopen.2

/-- C8: a metrics stream that never produces a "closed" observation — every
accepted frame's blink observation is not classified closed at the state it
is processed in, and every finite mouth ratio stays above the open threshold
— never satisfies the blink or mouth stage predicate: both stages require a
closed and an open observation. -/
theorem open_only_never_satisfies_blink_or_mouth (frames : List FrameInput)
    (s : LivenessComputationState)
    (hb : s.blink.closedDetected = false) (hm : s.mouth.closedDetected = false)
    (hopen : openOnlyTrace frames s = true) :
    (runFrames frames s).blink.closedDetected = false ∧
    (runFrames frames s).mouth.closedDetected = false ∧
    ∀ stage ∈ LIVENESS_STAGES,
      (stage.key = LivenessStageKey.blink ∨ stage.key = LivenessStageKey.mouth) →
      ∀ metrics, stage.check metrics (runFrames frames s) = false := by
  obtain ⟨hb', hm'⟩ := runFrames_closed_flags frames s hb hm hopen
  refine ⟨hb', hm', ?_⟩
  intro stage hst hkey metrics
  fin_cases hst
  · rcases hkey with h | h <;> simp at h
  · rcases hkey with h | h <;> simp at h
  · simp [LIVENESS_STAGES, hb']
  · simp [LIVENESS_STAGES, hm']

/-- C8 witness: one open-mouth, open-eyes synthetic frame from a fresh
session leaves both closed flags unset. -/
theorem open_only_witness :
    (runFrames [mkFrame ⟨50, 50⟩ 92] startSession).blink.closedDetected = false ∧
    (runFrames [mkFrame ⟨50, 50⟩ 92] startSession).mouth.closedDetected = false :=
  let h := open_only_never_satisfies_blink_or_mouth [mkFrame ⟨50, 50⟩ 92]
    startSession rfl rfl (by
      norm_num [openOnlyTrace, frameOpenOnly, mkFrame, mkLandmarks, testLandmark,
        startSession, createLivenessComputationState, resetBlinkDetections,
        resetMouthState, resetRange, computeBlinkRatios, computeMouthRatio,
        blinkClosedObserved, blinkThresholdOf, ratioGtThreshold,
        INITIAL_BLINK_AVG, mouthThreshold, List.get?_map, List.get?_range])
  ⟨h.1, h.2.1⟩

/-! ### Stage-evidence freshness (claim C1) -/

theorem mkLandmarks_get (nose : Point) (my : ℚ) (i : ℕ) (h : i < 98) :
    (mkLandmarks nose my)[i]? = some (testLandmark nose my i) := by
  simp [mkLandmarks, List.getElem?_map, List.getElem?_range, h]

theorem mkFrame_faceGeom (nose : Point) (my : ℚ) :
    getFaceCenterAndNose ⟨(0, 0, 100, 100), 9/10, mkLandmarks nose my⟩ =
      some ⟨50, 50, nose.x, nose.y, 100, 100⟩ := by
  norm_num [getFaceCenterAndNose, mkLandmarks_get, testLandmark, mkLandmarks]

theorem mkFrame_nodRatio (nose : Point) (my : ℚ) :
    computeNodRatio ⟨(0, 0, 100, 100), 9/10, mkLandmarks nose my⟩ =
      some ((50 - nose.y) / 100) := by
  rw [computeNodRatio, mkFrame_faceGeom]
  rfl

theorem mkFrame_shakeRatio (nose : Point) (my : ℚ) :
    computeShakeRatio ⟨(0, 0, 100, 100), 9/10, mkLandmarks nose my⟩ =
      some ((50 - nose.x) / 100) := by
  rw [computeShakeRatio, mkFrame_faceGeom]
  rfl

theorem mkFrame_blinkRatios (nose : Point) (my : ℚ) :
    computeBlinkRatios ⟨(0, 0, 100, 100), 9/10, mkLandmarks nose my⟩ =
      some ⟨4, 4, some 5, some 5, some 5⟩ := by
  norm_num [computeBlinkRatios, mkLandmarks_get, testLandmark]

theorem mkFrame_mouthRatio (nose : Point) (my : ℚ) :
    computeMouthRatio ⟨(0, 0, 100, 100), 9/10, mkLandmarks nose my⟩ =
      some (|my - 70| / 20) := by
  norm_num [computeMouthRatio, mkLandmarks_get, testLandmark]

set_option maxRecDepth 10000 in
/-- C1 counterexample: the nose moves horizontally during the nod stage
(frames 1–2), accumulating a shake spread of 4/5; frame 3 completes the nod
stage, and the shake stage becomes current with its range still holding
(-2/5, 2/5) — not the freshly-reset condition the claim requires — so
frame 4, with the face at rest, immediately completes the shake stage on
evidence gathered entirely during the nod stage. -/
theorem stage_evidence_reset_counterexample :
    (runFrames [mkFrame ⟨10, 50⟩ 72, mkFrame ⟨90, 50⟩ 72, mkFrame ⟨50, 10⟩ 72]
        startSession).stageIndex = 1 ∧
    (runFrames [mkFrame ⟨10, 50⟩ 72, mkFrame ⟨90, 50⟩ 72, mkFrame ⟨50, 10⟩ 72]
        startSession).shakeRange = ⟨some (-2/5), some (2/5)⟩ ∧
    (runFrames [mkFrame ⟨10, 50⟩ 72, mkFrame ⟨90, 50⟩ 72, mkFrame ⟨50, 10⟩ 72,
        mkFrame ⟨50, 50⟩ 72] startSession).stageIndex = 2 := by
  have h1 : (processFrame (mkFrame ⟨10, 50⟩ 72) startSession).1 =
      ⟨true, 0, 0, false,
       some ⟨some 0, some 0, some (2/5), some 0,
             some ⟨4, 4, some 5, some 5, some 5⟩, some (1/10)⟩,
       ⟨some 0, some 0⟩, ⟨some (2/5), some (2/5)⟩,
       ⟨false, true, some (19/2)⟩, ⟨false, true⟩⟩ := by
    norm_num [processFrame, computeFrameMetrics, evaluateStage, buildStageStatus,
      mkFrame, mkFrame_nodRatio, mkFrame_shakeRatio, mkFrame_blinkRatios,
      mkFrame_mouthRatio, updateRangeState, getSpread, updateBlinkState,
      updateBlinkAverage, blinkClosedObserved, blinkOpenObserved,
      blinkThresholdOf, ratioGtThreshold, ratioLtThreshold, updateMouthState,
      LIVENESS_STAGES, nodPitch, shakeYaw, mouthThreshold, INITIAL_BLINK_AVG,
      BLINK_LIMIT_LOW, BLINK_LIMIT_HIGH, BLINK_WEIGHT_CURRENT,
      BLINK_WEIGHT_PREVIOUS, startSession, createLivenessComputationState,
      resetBlinkDetections, resetMouthState, resetRange]
  have h2 : (processFrame (mkFrame ⟨90, 50⟩ 72)
      ⟨true, 0, 0, false,
       some ⟨some 0, some 0, some (2/5), some 0,
             some ⟨4, 4, some 5, some 5, some 5⟩, some (1/10)⟩,
       ⟨some 0, some 0⟩, ⟨some (2/5), some (2/5)⟩,
       ⟨false, true, some (19/2)⟩, ⟨false, true⟩⟩).1 =
      ⟨true, 0, 0, false,
       some ⟨some 0, some 0, some (-2/5), some (4/5),
             some ⟨4, 4, some 5, some 5, some 5⟩, some (1/10)⟩,
       ⟨some 0, some 0⟩, ⟨some (-2/5), some (2/5)⟩,
       ⟨false, true, some (181/20)⟩, ⟨false, true⟩⟩ := by
    norm_num [processFrame, computeFrameMetrics, evaluateStage, buildStageStatus,
      mkFrame, mkFrame_nodRatio, mkFrame_shakeRatio, mkFrame_blinkRatios,
      mkFrame_mouthRatio, updateRangeState, getSpread, updateBlinkState,
      updateBlinkAverage, blinkClosedObserved, blinkOpenObserved,
      blinkThresholdOf, ratioGtThreshold, ratioLtThreshold, updateMouthState,
      LIVENESS_STAGES, nodPitch, shakeYaw, mouthThreshold, INITIAL_BLINK_AVG,
      BLINK_LIMIT_LOW, BLINK_LIMIT_HIGH, BLINK_WEIGHT_CURRENT,
      BLINK_WEIGHT_PREVIOUS, resetBlinkDetections, resetMouthState, resetRange]
  have h3 : (processFrame (mkFrame ⟨50, 10⟩ 72)
      ⟨true, 0, 0, false,
       some ⟨some 0, some 0, some (-2/5), some (4/5),
             some ⟨4, 4, some 5, some 5, some 5⟩, some (1/10)⟩,
       ⟨some 0, some 0⟩, ⟨some (-2/5), some (2/5)⟩,
       ⟨false, true, some (181/20)⟩, ⟨false, true⟩⟩).1 =
      ⟨true, 1, 1/4, false,
       some ⟨some (2/5), some (2/5), some 0, some (4/5),
             some ⟨4, 4, some 5, some 5, some 5⟩, some (1/10)⟩,
       ⟨none, none⟩, ⟨some (-2/5), some (2/5)⟩,
       ⟨false, true, some (1729/200)⟩, ⟨false, true⟩⟩ := by
    norm_num [processFrame, computeFrameMetrics, evaluateStage, buildStageStatus,
      mkFrame, mkFrame_nodRatio, mkFrame_shakeRatio, mkFrame_blinkRatios,
      mkFrame_mouthRatio, updateRangeState, getSpread, updateBlinkState,
      updateBlinkAverage, blinkClosedObserved, blinkOpenObserved,
      blinkThresholdOf, ratioGtThreshold, ratioLtThreshold, updateMouthState,
      LIVENESS_STAGES, nodPitch, shakeYaw, mouthThreshold, INITIAL_BLINK_AVG,
      BLINK_LIMIT_LOW, BLINK_LIMIT_HIGH, BLINK_WEIGHT_CURRENT,
      BLINK_WEIGHT_PREVIOUS, resetBlinkDetections, resetMouthState, resetRange]
  have h4 : (processFrame (mkFrame ⟨50, 50⟩ 72)
      ⟨true, 1, 1/4, false,
       some ⟨some (2/5), some (2/5), some 0, some (4/5),
             some ⟨4, 4, some 5, some 5, some 5⟩, some (1/10)⟩,
       ⟨none, none⟩, ⟨some (-2/5), some (2/5)⟩,
       ⟨false, true, some (1729/200)⟩, ⟨false, true⟩⟩).1 =
      ⟨true, 2, 1/2, false,
       some ⟨some 0, some 0, some 0, some (4/5),
             some ⟨4, 4, some 5, some 5, some 5⟩, some (1/10)⟩,
       ⟨some 0, some 0⟩, ⟨none, none⟩,
       ⟨false, true, some (16561/2000)⟩, ⟨false, true⟩⟩ := by
    norm_num [processFrame, computeFrameMetrics, evaluateStage, buildStageStatus,
      mkFrame, mkFrame_nodRatio, mkFrame_shakeRatio, mkFrame_blinkRatios,
      mkFrame_mouthRatio, updateRangeState, getSpread, updateBlinkState,
      updateBlinkAverage, blinkClosedObserved, blinkOpenObserved,
      blinkThresholdOf, ratioGtThreshold, ratioLtThreshold, updateMouthState,
      LIVENESS_STAGES, nodPitch, shakeYaw, mouthThreshold, INITIAL_BLINK_AVG,
      BLINK_LIMIT_LOW, BLINK_LIMIT_HIGH, BLINK_WEIGHT_CURRENT,
      BLINK_WEIGHT_PREVIOUS, resetBlinkDetections, resetMouthState, resetRange]
  have hrun3 : runFrames [mkFrame ⟨10, 50⟩ 72, mkFrame ⟨90, 50⟩ 72,
      mkFrame ⟨50, 10⟩ 72] startSession =
      ⟨true, 1, 1/4, false,
       some ⟨some (2/5), some (2/5), some 0, some (4/5),
             some ⟨4, 4, some 5, some 5, some 5⟩, some (1/10)⟩,
       ⟨none, none⟩, ⟨some (-2/5), some (2/5)⟩,
       ⟨false, true, some (1729/200)⟩, ⟨false, true⟩⟩ := by
    simp only [runFrames, List.foldl_cons, List.foldl_nil, h1, h2, h3]
  have hrun4 : runFrames [mkFrame ⟨10, 50⟩ 72, mkFrame ⟨90, 50⟩ 72,
      mkFrame ⟨50, 10⟩ 72, mkFrame ⟨50, 50⟩ 72] startSession =
      ⟨true, 2, 1/2, false,
       some ⟨some 0, some 0, some 0, some (4/5),
             some ⟨4, 4, some 5, some 5, some 5⟩, some (1/10)⟩,
       ⟨some 0, some 0⟩, ⟨none, none⟩,
       ⟨false, true, some (16561/2000)⟩, ⟨false, true⟩⟩ := by
    simp only [runFrames, List.foldl_cons, List.foldl_nil, h1, h2, h3, h4]
  rw [hrun3, hrun4]
  exact ⟨rfl, rfl, rfl⟩

/-- C1 amended: when stage i's predicate is satisfied, `evaluateStage`
resets only stage i's own running state (the nod or shake range, the blink
closed/open flags — not eyeAvg — or the mouth flags) and leaves every other
stage's running state exactly as accumulated so far; since all trackers
update on every accepted frame from session start, observations made during
earlier stages can satisfy a later stage's predicate. -/
theorem stage_completion_resets_own_state (metrics : LivenessMetrics)
    (s : LivenessComputationState) (stage : LivenessStageDefinition)
    (hstage : LIVENESS_STAGES.get? s.stageIndex = some stage)
    (hcheck : stage.check metrics s = true) :
    (stage.key = LivenessStageKey.nod →
      (evaluateStage metrics s).1.nodRange = ⟨none, none⟩ ∧
      (evaluateStage metrics s).1.shakeRange = s.shakeRange ∧
      (evaluateStage metrics s).1.blink = s.blink ∧
      (evaluateStage metrics s).1.mouth = s.mouth) ∧
    (stage.key = LivenessStageKey.shake →
      (evaluateStage metrics s).1.shakeRange = ⟨none, none⟩ ∧
      (evaluateStage metrics s).1.nodRange = s.nodRange ∧
      (evaluateStage metrics s).1.blink = s.blink ∧
      (evaluateStage metrics s).1.mouth = s.mouth) ∧
    (stage.key = LivenessStageKey.blink →
      (evaluateStage metrics s).1.blink.closedDetected = false ∧
      (evaluateStage metrics s).1.blink.openDetected = false ∧
      (evaluateStage metrics s).1.blink.eyeAvg = s.blink.eyeAvg ∧
      (evaluateStage metrics s).1.nodRange = s.nodRange ∧
      (evaluateStage metrics s).1.shakeRange = s.shakeRange ∧
      (evaluateStage metrics s).1.mouth = s.mouth) ∧
    (stage.key = LivenessStageKey.mouth →
      (evaluateStage metrics s).1.mouth = ⟨false, false⟩ ∧
      (evaluateStage metrics s).1.nodRange = s.nodRange ∧
      (evaluateStage metrics s).1.shakeRange = s.shakeRange ∧
      (evaluateStage metrics s).1.blink = s.blink) ∧
    (evaluateStage metrics s).1.stageIndex = s.stageIndex + 1 := by
  unfold evaluateStage
  rw [hstage]
  dsimp only
  simp only [hcheck, if_true]
  refine ⟨?_, ?_, ?_, ?_, ?_⟩
  · intro hkey
    rw [hkey]
    dsimp only [resetBlinkDetections, resetMouthState, resetRange]
    split <;> exact ⟨rfl, rfl, rfl, rfl⟩
  · intro hkey
    rw [hkey]
    dsimp only [resetBlinkDetections, resetMouthState, resetRange]
    split <;> exact ⟨rfl, rfl, rfl, rfl⟩
  · intro hkey
    rw [hkey]
    dsimp only [resetBlinkDetections, resetMouthState, resetRange]
    split <;> exact ⟨rfl, rfl, rfl, rfl, rfl, rfl⟩
  · intro hkey
    rw [hkey]
    dsimp only [resetBlinkDetections, resetMouthState, resetRange]
    split <;> exact ⟨rfl, rfl, rfl, rfl⟩
  · cases hkey : stage.key <;>
      dsimp only [resetBlinkDetections, resetMouthState, resetRange] <;>
      split <;> rfl

/-- C1 amended witness: a nod-satisfying metrics record at session start —
the nod range is reset, the shake range is untouched, and the stage pointer
advances to 1. -/
theorem stage_completion_resets_own_state_witness :
    (evaluateStage ⟨some 0, some (1/10), none, none, none, none⟩
        startSession).1.stageIndex = 1 ∧
    (evaluateStage ⟨some 0, some (1/10), none, none, none, none⟩
        startSession).1.nodRange = ⟨none, none⟩ ∧
    (evaluateStage ⟨some 0, some (1/10), none, none, none, none⟩
        startSession).1.shakeRange = startSession.shakeRange := by
  have h := stage_completion_resets_own_state
    ⟨some 0, some (1/10), none, none, none, none⟩ startSession _ rfl
    (by norm_num [LIVENESS_STAGES, nodPitch])
  obtain ⟨hnod, _, _, _, hidx⟩ := h
  have hn := hnod rfl
  exact ⟨hidx, hn.1, hn.2.1⟩

end LivenessWeb
